import Mathlib

/-!
Verification of the urza task-orchestration core against its specification.

This file gives a shallow embedding of the parts of the repository that the
claims concern: the data model (urza/db/models.py), the bot protocol handlers
(urza/services/bot/protocol.py), the handler registration
(urza/services/bot/main.py), the publisher (urza/services/publisher/main.py,
urza/services/publisher/protocol.py) and the orchestrator's two monitors
(urza/services/orchestrator/main.py).

Conventions of the embedding:
- Timestamps are modelled as integers (an instant on the UTC timeline).
- Python exceptions are modelled with Except PyErr: a unit of work returns
  Except.error when the corresponding Python code raises; the try/except
  wrapper of each unit catches the error, logs, and rolls back, which at the
  store level means the store is returned unchanged.
- JSON values (the result of json.loads) are modelled by the inductive Json.
  A Python string holding a well-formed ISO-8601 timestamp denoting instant t
  is modelled as Json.time t (datetime.fromisoformat parses it to t); any
  other string is Json.str s (fromisoformat raises ValueError on it).
- Database rows are records holding the columns the claims touch; columns no
  claim reads or writes (uuids of owners, tokens, descriptions, ...) are
  omitted.  Attributes the services set on ORM instances that are NOT mapped
  columns (claimed_at on TaskExecution in handle_claim, queued_at in the
  publisher) are no part of the rows: db.commit() persists only mapped
  columns, every unit of work opens a fresh session, and the attribute is
  discarded at db.close(), so no later unit of work can observe it.
-/

namespace Urza

/-- Status values of TaskStatusEnum (src/urza/db/models.py lines 14-20).
The enum defines exactly these six members; in particular there is no
PENDING member. -/
inductive TaskStatus where
  | broadcasted
  | claimed
  | in_progress
  | completed
  | failed
  | timedout
  deriving DecidableEq, Repr

/-- Python exceptions raised by the modelled code. -/
inductive PyErr where
  | attributeError (name : String)
  | keyError (name : String)
  | typeError (msg : String)
  | valueError (msg : String)
  | jsonDecodeError
  | transportError (msg : String)
  deriving DecidableEq, Repr

/-- The members of TaskStatusEnum, in source order (src/urza/db/models.py). -/
def TaskStatusEnum.members : List TaskStatus :=
  [.broadcasted, .claimed, .in_progress, .completed, .failed, .timedout]

/-- Python attribute lookup on the TaskStatusEnum class: the six member names
resolve to their values, every other name (notably PENDING) raises
AttributeError. -/
def TaskStatusEnum.attr : String → Except PyErr TaskStatus
  | "BROADCASTED" => .ok .broadcasted
  | "CLAIMED" => .ok .claimed
  | "IN_PROGRESS" => .ok .in_progress
  | "COMPLETED" => .ok .completed
  | "FAILED" => .ok .failed
  | "TIMEDOUT" => .ok .timedout
  | other => .error (.attributeError other)

/-- A JSON value, as returned by json.loads.  Json.time t models a string
holding a well-formed ISO-8601 timestamp denoting instant t; Json.str s
models every other string. -/
inductive Json where
  | null
  | bool (b : Bool)
  | num (n : Int)
  | str (s : String)
  | time (t : Int)
  | arr (elems : List Json)
  | obj (fields : List (String × Json))

/-- Python data[k] on a parsed JSON value: field lookup on a dict, KeyError
when the key is absent, TypeError when the value is not a dict. -/
def Json.getKey (j : Json) (k : String) : Except PyErr Json :=
  match j with
  | .obj fields =>
      match fields.find? (fun kv => kv.fst == k) with
      | some kv => .ok kv.snd
      | none => .error (.keyError k)
  | _ => .error (.typeError "value is not subscriptable by string")

/-- Python data.get(k, dflt): lookup with a default on a dict, AttributeError
on a non-dict value. -/
def Json.getD (j : Json) (k : String) (dflt : Json) : Except PyErr Json :=
  match j with
  | .obj fields =>
      match fields.find? (fun kv => kv.fst == k) with
      | some kv => .ok kv.snd
      | none => .ok dflt
  | _ => .error (.attributeError "get")

/-- Python equality between a JSON payload value and a database string column
(e.g. bot_id == row.bot_id): true exactly when the value is that string. -/
def Json.eqStr (j : Json) (s : String) : Bool :=
  match j with
  | .str s2 => s2 == s
  | _ => false

/-- The string content of a JSON value when it is a plain string, none
otherwise; used where the source stores a payload value into a string
column. -/
def Json.asId : Json → Option String
  | .str s => some s
  | _ => none

/-- Common pattern of the claim and result handlers:
v = data.get(key, datetime.now(UTC)); if isinstance(v, str):
v = datetime.fromisoformat(v.replace('Z', '+00:00')).
A Json.time value is a well-formed ISO string and parses to its instant; a
Json.str value makes fromisoformat raise ValueError; any non-string value is
kept as it is (the isinstance test does not fire). -/
def pyTimeField (data : Json) (key : String) (now : Int) : Except PyErr Json := do
  let v ← data.getD key (Json.time now)
  match v with
  | .str s => .error (.valueError s)
  | v => .ok v

/-- A row of the bots table (src/urza/db/models.py), restricted to the columns
the modelled services touch. -/
structure Bot where
  bot_id : String
  tg_bot_username : String
  last_checkin : Option Int
  is_hidden : Bool

/-- A row of the tasks table (src/urza/db/models.py), restricted to the
columns the modelled services touch. -/
structure Task where
  task_id : String
  config : Json
  name : String
  next_run : Option Int
  last_run : Option Int
  timeout_seconds : Int
  cron_schedule : Option String
  is_active : Bool
  is_hidden : Bool

/-- A row of the task_executions table (src/urza/db/models.py).  The mapped
columns are execution_id, task_id, created_by_id, assigned_to, started_at,
completed_at, status, proof_of_work_id, error_message, results, retry_count,
is_hidden.  handle_claim's `execution.claimed_at = ...` and the publisher's
`execution.queued_at = ...` target attributes that are not mapped columns:
db.commit() does not persist them and each message's fresh session never sees
them, so they are not row state and are not modelled. -/
structure TaskExecution where
  execution_id : String
  task_id : String
  assigned_to : Option String
  started_at : Option Int
  completed_at : Option Json
  status : TaskStatus
  error_message : Option Json
  results : Option Json
  retry_count : Int
  is_hidden : Bool

/-- The task store: the three tables the modelled services read and write. -/
structure Store where
  bots : List Bot
  tasks : List Task
  executions : List TaskExecution

/-- db.query(models.Bot).filter_by(bot_id=v, is_hidden=False).first(), with
the payload value v compared against the bot_id column. -/
def Store.findBotJson (db : Store) (v : Json) : Option Bot :=
  db.bots.find? (fun b => v.eqStr b.bot_id && !b.is_hidden)

/-- db.query(models.TaskExecution).filter_by(execution_id=v).first(), with the
payload value v compared against the execution_id column. -/
def Store.findExecJson (db : Store) (v : Json) : Option TaskExecution :=
  db.executions.find? (fun e => v.eqStr e.execution_id)

/-- Committing a mutation of the execution row with the given primary key. -/
def Store.updateExec (db : Store) (eid : String) (f : TaskExecution → TaskExecution) : Store :=
  { db with executions := db.executions.map (fun e => if e.execution_id == eid then f e else e) }

/-- Committing a mutation of the bot row with the given primary key. -/
def Store.updateBot (db : Store) (bid : String) (f : Bot → Bot) : Store :=
  { db with bots := db.bots.map (fun b => if b.bot_id == bid then f b else b) }

/-- Lookup of an execution row by its primary key string. -/
def Store.findExec (db : Store) (eid : String) : Option TaskExecution :=
  db.executions.find? (fun e => e.execution_id == eid)

/-- Status of the execution row with the given id, if present. -/
def Store.execStatus (db : Store) (eid : String) : Option TaskStatus :=
  (db.findExec eid).map (fun e => e.status)

/-- assigned_to of the execution row with the given id, if present. -/
def Store.execAssigned (db : Store) (eid : String) : Option (Option String) :=
  (db.findExec eid).map (fun e => e.assigned_to)

/-- An inbound transport message, after the leading text handling the source
performs: command is the leading command token of the message text, body is
the outcome of json.loads on the remaining text (Except.error models
json.JSONDecodeError on unparseable text). -/
structure InMsg where
  command : String
  body : Except PyErr Json

/-- The mutation handle_claim commits on the claimed execution row: status to
IN_PROGRESS and assigned_to to the payload's bot_id.  The source additionally
executes `execution.claimed_at = claimed_at`, but claimed_at is not a mapped
column of TaskExecution, so that assignment is not persisted by db.commit()
and is invisible to every later unit of work; it therefore does not appear in
the committed row. -/
def claimUpd (bot_id : Json) (e : TaskExecution) : TaskExecution :=
  { e with status := TaskStatus.in_progress
           assigned_to := bot_id.asId }

/-- Body of handle_claim (src/urza/services/bot/protocol.py lines 25-99),
between SessionFactory() and the except clauses.  Returns some db2 when the
unit reaches db.commit() with the mutations applied, none on one of the
logged early returns (unknown bot, unknown execution, execution assigned to a
different bot), and Except.error when the Python body raises. -/
def handleClaimBody (db : Store) (msg : InMsg) (now : Int) : Except PyErr (Option Store) := do
  let data ← msg.body
  let execution_id ← data.getKey "execution_id"
  let bot_id ← data.getKey "bot_id"
  let _claimed_at ← pyTimeField data "claimed_at" now
  match db.findBotJson bot_id with
  | none => return none
  | some bot =>
  match db.findExecJson execution_id with
  | none => return none
  | some execution =>
  if execution.assigned_to.elim false (fun owner => !(bot_id.eqStr owner)) then
    return none
  else
    let db1 := db.updateExec execution.execution_id (claimUpd bot_id)
    let db2 := db1.updateBot bot.bot_id (fun b => { b with last_checkin := some now })
    return some db2

/-- handle_claim with its try/except wrapper: JSONDecodeError and KeyError are
logged without rollback (nothing was written before parsing), every other
exception is logged and rolled back, and the session is closed; on every
non-commit path the store is unchanged. -/
def handle_claim (db : Store) (msg : InMsg) (now : Int) : Store :=
  match handleClaimBody db msg now with
  | .ok (some db2) => db2
  | .ok none => db
  | .error _ => db

/-- Body of handle_status (src/urza/services/bot/protocol.py lines 102-152):
informational only; validates bot and execution exist, then commits only the
bot's last_checkin. -/
def handleStatusBody (db : Store) (msg : InMsg) (now : Int) : Except PyErr (Option Store) := do
  let data ← msg.body
  let execution_id ← data.getKey "execution_id"
  let bot_id ← data.getKey "bot_id"
  let _status_message ← data.getD "message" (Json.str "Working...")
  match db.findBotJson bot_id with
  | none => return none
  | some bot =>
  match db.findExecJson execution_id with
  | none => return none
  | some _execution =>
    let db1 := db.updateBot bot.bot_id (fun b => { b with last_checkin := some now })
    return some db1

/-- handle_status with its try/except wrapper. -/
def handle_status (db : Store) (msg : InMsg) (now : Int) : Store :=
  match handleStatusBody db msg now with
  | .ok (some db1) => db1
  | .ok none => db
  | .error _ => db

/-- Body of handle_result (src/urza/services/bot/protocol.py lines 155-248),
shared by /complete and /failed.  The reported status string in the payload,
not the command, selects the branch; a bot that is not the assigned bot is
rejected; an unknown status string is a logged protocol error with no
commit. -/
def handleResultBody (db : Store) (msg : InMsg) (now : Int) : Except PyErr (Option Store) := do
  let data ← msg.body
  let execution_id ← data.getKey "execution_id"
  let bot_id ← data.getKey "bot_id"
  let status ← data.getKey "status"
  let completed_at ← pyTimeField data "completed_at" now
  match db.findBotJson bot_id with
  | none => return none
  | some bot =>
  match db.findExecJson execution_id with
  | none => return none
  | some execution =>
  if !(execution.assigned_to.elim false (fun owner => bot_id.eqStr owner)) then
    return none
  else
    if status.eqStr "completed" then
      let results ← data.getD "results" (Json.obj [])
      let db1 := db.updateExec execution.execution_id (fun e =>
        { e with status := TaskStatus.completed
                 results := some results
                 completed_at := some completed_at })
      let db2 := db1.updateBot bot.bot_id (fun b => { b with last_checkin := some now })
      return some db2
    else if status.eqStr "failed" then
      let error_message ← data.getD "error_message" (Json.str "Unknown error")
      let db1 := db.updateExec execution.execution_id (fun e =>
        { e with status := TaskStatus.failed
                 error_message := some error_message
                 completed_at := some completed_at })
      let db2 := db1.updateBot bot.bot_id (fun b => { b with last_checkin := some now })
      return some db2
    else
      return none

/-- handle_result with its try/except wrapper. -/
def handle_result (db : Store) (msg : InMsg) (now : Int) : Store :=
  match handleResultBody db msg now with
  | .ok (some db2) => db2
  | .ok none => db
  | .error _ => db

/-- Attribute lookup on the module urza.services.bot.protocol: the module
defines exactly handle_claim, handle_status and handle_result; any other
name (notably handle_checkin) raises AttributeError when accessed. -/
def protocolModuleAttr : String → Option (Store → InMsg → Int → Store)
  | "handle_claim" => some handle_claim
  | "handle_status" => some handle_status
  | "handle_result" => some handle_result
  | _ => none

/-- The on_checkin handler registered for /checkin messages
(src/urza/services/bot/main.py lines 74-79): it awaits
protocol.handle_checkin, an attribute the protocol module does not define.
There is no try/except around the call, so the AttributeError escapes the
handler into the dispatching loop, and no row is touched. -/
def on_checkin (db : Store) (msg : InMsg) (now : Int) : Except PyErr Store :=
  match protocolModuleAttr "handle_checkin" with
  | some h => .ok (h db msg now)
  | none => .error (.attributeError "handle_checkin")

/-- A broadcast sent over the chat transport, identified by the payload fields
format_task_broadcast (src/urza/services/publisher/protocol.py) embeds into
the formatted message text. -/
structure Broadcast where
  execution_id : String
  task_id : String
  timeout_seconds : Int
  task_name : String

/-- validate_task_config (src/urza/services/publisher/protocol.py): the config
must be a non-empty dict. -/
def validate_task_config : Json → Bool
  | .obj fields => !fields.isEmpty
  | _ => false

/-- format_task_broadcast (src/urza/services/publisher/protocol.py), modelled
by the payload fields of the rendered message. -/
def format_task_broadcast (execution_id task_id : String) (_task_config : Json)
    (timeout_seconds : Int) (task_name : String) : Broadcast :=
  { execution_id := execution_id
    task_id := task_id
    timeout_seconds := timeout_seconds
    task_name := task_name }

/-- The join db.query(TaskExecution, Task).join(Task, on task_id).filter on
execution_id, .first(): the execution row paired with its task row (an inner
join: an execution whose task row is missing yields no row). -/
def Store.joinExecTask (db : Store) (eid : String) : Option (TaskExecution × Task) :=
  match db.executions.find? (fun e => e.execution_id == eid) with
  | none => none
  | some e => (db.tasks.find? (fun t => t.task_id == e.task_id)).map (fun t => (e, t))

/-- Body of UrzaPublisher.process_execution (src/urza/services/publisher/main.py
lines 83-148).  sendOutcome is what the chat transport does for the broadcast
(Except.ok: delivered; Except.error: the send raised).  Returns, on a normal
Python return, the committed store and the broadcasts actually sent; the
status check evaluates models.TaskStatusEnum.PENDING, which raises
AttributeError, so every run on a found execution ends in the except clause
(log + rollback) before any send. -/
def processExecutionBody (db : Store) (execution_id : String)
    (sendOutcome : Except PyErr Unit) (_now : Int) :
    Except PyErr (Option (Store × List Broadcast)) := do
  match db.joinExecTask execution_id with
  | none => return none
  | some (execution, task) =>
  let pending ← TaskStatusEnum.attr "PENDING"
  if execution.status ≠ pending then
    return none
  else if !validate_task_config task.config then
    let db1 := db.updateExec execution.execution_id (fun e =>
      { e with status := TaskStatus.failed
               error_message := some (Json.str "Invalid task configuration") })
    return some (db1, [])
  else
    let message := format_task_broadcast execution.execution_id task.task_id
      task.config task.timeout_seconds task.name
    match sendOutcome with
    | .error e => Except.error e
    | .ok _ =>
      let db1 := db.updateExec execution.execution_id (fun e =>
        { e with status := TaskStatus.broadcasted })
      return some (db1, [message])

/-- process_execution with its try/except wrapper: any raised error is logged
and rolled back, leaving the store unchanged with nothing sent; the popped
identifier is never pushed back onto the queue (no push call exists in the
function). -/
def process_execution (db : Store) (execution_id : String)
    (sendOutcome : Except PyErr Unit) (now : Int) : Store × List Broadcast :=
  match processExecutionBody db execution_id sendOutcome now with
  | .ok (some r) => r
  | .ok none => (db, [])
  | .error _ => (db, [])

/-- Two deliveries of the same execution identifier to the publisher (a queue
re-delivery): the second processing starts from the store the first one left,
and the broadcasts of both are collected. -/
def processTwice (db : Store) (execution_id : String)
    (sendOutcome : Except PyErr Unit) (now1 now2 : Int) : Store × List Broadcast :=
  let r1 := process_execution db execution_id sendOutcome now1
  let r2 := process_execution r1.fst execution_id sendOutcome now2
  (r2.fst, r1.snd ++ r2.snd)

/-- One task's unit of work inside cron_evaluator
(src/urza/services/orchestrator/main.py lines 73-104).  The unit first
evaluates the keyword arguments of models.TaskExecution(...), among them
status=models.TaskStatusEnum.PENDING, which raises AttributeError; were that
member present, the constructor call itself would raise TypeError, because
submitted_at is not a column (or any attribute) of TaskExecution.  The rest of
the unit (db.add, db.flush, the queue push, last_run/next_run recomputation,
db.commit) is therefore unreachable.  On a normal return the unit would
produce the new store and its queue pushes. -/
def cronTaskUnit (_db : Store) (_task : Task) (_freshId : String) (_now : Int) :
    Except PyErr (Store × List String) := do
  let _pending ← TaskStatusEnum.attr "PENDING"
  Except.error (.typeError "submitted_at is an invalid keyword argument for TaskExecution")

/-- One cron_evaluator cycle at instant now: select the active, non-hidden
tasks with a cron schedule whose next_run <= now (a NULL next_run matches
nothing), then run each task's unit of work, catching its exception with a
log and db.rollback() so that one task's failure does not abort the cycle for
the others.  freshId supplies the uuid4 of each created execution.  Returns
the final store and all identifiers pushed onto the work queue. -/
def cronEvaluatorCycle (db : Store) (now : Int) (freshId : Nat → String) :
    Store × List String :=
  let due := db.tasks.filter (fun t =>
    t.is_active && !t.is_hidden && t.cron_schedule.isSome &&
      t.next_run.elim false (fun nr => decide (nr ≤ now)))
  due.enum.foldl
    (fun acc it =>
      match cronTaskUnit acc.fst it.snd (freshId it.fst) now with
      | .ok r => (r.fst, acc.snd ++ r.snd)
      | .error _ => acc)
    (db, [])

/-- Body of one timeout_monitor cycle (src/urza/services/orchestrator/main.py
lines 113-160).  Building the query filter evaluates the list
[TaskStatusEnum.PENDING, TaskStatusEnum.BROADCASTED,
TaskStatusEnum.IN_PROGRESS]; the first element raises AttributeError, so the
query never runs.  Were the list evaluable, the loop body would still raise
on its first row: execution.submitted_at is not an attribute of any
TaskExecution instance (no column, and no code path sets it), and timedelta
is not imported in the module. -/
def timeoutMonitorBody (db : Store) (_now : Int) : Except PyErr Store := do
  let pending ← TaskStatusEnum.attr "PENDING"
  let inflight := (db.executions.filter (fun e =>
      (e.status == pending || e.status == .broadcasted || e.status == .in_progress) &&
        !e.is_hidden)).filterMap (fun e =>
      (db.tasks.find? (fun t => t.task_id == e.task_id)).map (fun t => (e, t)))
  match inflight with
  | [] => return db
  | _ :: _ => Except.error (.attributeError "submitted_at")

/-- One timeout_monitor cycle with the enclosing try/except of the loop: the
exception is logged (without an explicit rollback — nothing was mutated) and
the cycle ends; the store is unchanged on the error path. -/
def timeoutMonitorCycle (db : Store) (now : Int) : Store :=
  match timeoutMonitorBody db now with
  | .ok db1 => db1
  | .error _ => db

/-! Concrete fixtures used by the theorems below. -/

/-- A known, non-hidden worker bot. -/
def botB1 : Bot :=
  { bot_id := "b1", tg_bot_username := "worker1", last_checkin := none, is_hidden := false }

/-- A second known, non-hidden worker bot. -/
def botB2 : Bot :=
  { bot_id := "b2", tg_bot_username := "worker2", last_checkin := none, is_hidden := false }

/-- An active task with a five-minute cron schedule due at instant 600 and a
valid (non-empty dict) config. -/
def taskT1 : Task :=
  { task_id := "t1", config := Json.obj [("cmd", Json.str "run")], name := "taskT1"
    next_run := some 600, last_run := none, timeout_seconds := 60
    cron_schedule := some "*/5 * * * *", is_active := true, is_hidden := false }

/-- An execution of taskT1 that already reached the terminal status COMPLETED,
assigned to bot b1, with results and completed_at recorded. -/
def execDoneE1 : TaskExecution :=
  { execution_id := "e1", task_id := "t1", assigned_to := some "b1"
    started_at := some 0, completed_at := some (Json.time 50)
    status := TaskStatus.completed, error_message := none
    results := some (Json.obj [("x", Json.num 1)]), retry_count := 0
    is_hidden := false }

/-- An execution of taskT1 that is BROADCASTED and not yet claimed. -/
def execOpenE1 : TaskExecution :=
  { execution_id := "e1", task_id := "t1", assigned_to := none
    started_at := some 0, completed_at := none
    status := TaskStatus.broadcasted, error_message := none
    results := none, retry_count := 0
    is_hidden := false }

/-- An execution of taskT1 already IN_PROGRESS and assigned to bot b1. -/
def execClaimedE1 : TaskExecution :=
  { execution_id := "e1", task_id := "t1", assigned_to := some "b1"
    started_at := some 0, completed_at := none
    status := TaskStatus.in_progress, error_message := none
    results := none, retry_count := 0
    is_hidden := false }

/-- Store with a completed execution assigned to b1. -/
def storeDone : Store := { bots := [botB1], tasks := [taskT1], executions := [execDoneE1] }

/-- Store with an unclaimed broadcasted execution and one known bot. -/
def storeOpen : Store := { bots := [botB1], tasks := [taskT1], executions := [execOpenE1] }

/-- Store with an IN_PROGRESS execution assigned to the known bot b1. -/
def storeClaimed : Store :=
  { bots := [botB1], tasks := [taskT1], executions := [execClaimedE1] }

/-- Store with an unclaimed broadcasted execution and two known bots. -/
def storeTwoBots : Store :=
  { bots := [botB1, botB2], tasks := [taskT1], executions := [execOpenE1] }

/-- Store as the publisher sees it: an execution joined to its task. -/
def storePub : Store := { bots := [], tasks := [taskT1], executions := [execOpenE1] }

/-- Store as the cron evaluator sees it: one due task, no executions yet. -/
def storeCron : Store := { bots := [], tasks := [taskT1], executions := [] }

/-- The parsed payload of a well-formed /claim message for the given execution
and bot; claimedAt is the optional claimed_at payload field. -/
def claimData (eid bid : String) (claimedAt : Option Json) : Json :=
  Json.obj ([("execution_id", Json.str eid), ("bot_id", Json.str bid)] ++
    (claimedAt.elim [] (fun c => [("claimed_at", c)])))

/-- A well-formed /claim message for the given execution and bot; claimedAt is
the optional claimed_at payload field. -/
def mkClaimMsg (eid bid : String) (claimedAt : Option Json) : InMsg :=
  { command := "/claim", body := .ok (claimData eid bid claimedAt) }

/-- A /claim message from b1 for e1 that omits the claimed_at field. -/
def msgClaimNoTs : InMsg := mkClaimMsg "e1" "b1" none

/-- The bot's last_checkin stamp the handlers commit together with their
execution update. -/
def touchBot (db : Store) (bid : String) (now : Int) : Store :=
  db.updateBot bid (fun b => { b with last_checkin := some now })

/-! Helper lemmas shared by the claim theorems. -/

/-- Folding a function that ignores its second argument and returns its
accumulator unchanged is the identity on the accumulator. -/
theorem foldl_fixed_acc {α β : Type} (l : List β) (acc : α) (f : α → β → α)
    (h : ∀ a b, f a b = a) : l.foldl f acc = acc := by
  induction l generalizing acc with
  | nil => rfl
  | cons b l ih => rw [List.foldl_cons, h, ih]

/-- Every cron evaluator cycle leaves the store unchanged and pushes nothing:
each task's unit of work raises AttributeError at
status=models.TaskStatusEnum.PENDING, which the per-task except clause
catches and rolls back. -/
theorem cronEvaluatorCycle_inert (db : Store) (now : Int) (freshId : Nat → String) :
    cronEvaluatorCycle db now freshId = (db, []) := by
  unfold cronEvaluatorCycle
  exact foldl_fixed_acc _ _ _ (fun a b => rfl)

/-- When the popped identifier resolves to an execution joined to its task,
the publisher's unit of work raises AttributeError at the
models.TaskStatusEnum.PENDING status check. -/
theorem processExecutionBody_raises (db : Store) (eid : String)
    (send : Except PyErr Unit) (now : Int) (et : TaskExecution × Task)
    (h : db.joinExecTask eid = some et) :
    processExecutionBody db eid send now = .error (.attributeError "PENDING") := by
  obtain ⟨e, t⟩ := et
  unfold processExecutionBody
  rw [h]
  rfl

/-- process_execution never changes the store and never sends a broadcast:
either the execution is not found (logged return), or the unit raises at the
PENDING status check and the except clause rolls back. -/
theorem process_execution_inert (db : Store) (eid : String)
    (send : Except PyErr Unit) (now : Int) :
    process_execution db eid send now = (db, []) := by
  unfold process_execution
  match hj : db.joinExecTask eid with
  | none =>
    unfold processExecutionBody
    rw [hj]
    rfl
  | some et =>
    rw [processExecutionBody_raises db eid send now et hj]

/-! Claim theorems. -/

/-- C1: the claim says that once an execution's status is COMPLETED, FAILED or
TIMEDOUT no handler write changes its status or fields.  The code violates
this: handle_claim checks only assigned_to, never status, so re-delivering
the /claim of the assigned bot to an already COMPLETED execution flips its
status back to IN_PROGRESS and commits it (the edge COMPLETED -> IN_PROGRESS,
absent from the section 4.3 table). -/
theorem claim_overwrites_terminal_status :
    storeDone.execStatus "e1" = some TaskStatus.completed
    ∧ (handle_claim storeDone (mkClaimMsg "e1" "b1" (some (Json.time 60))) 100).execStatus "e1"
        = some TaskStatus.in_progress :=
  ⟨rfl, rfl⟩

/-- C2: the claim says a timeout-monitor cycle run after the deadline of a
non-hidden in-flight execution transitions it to TIMEDOUT with completed_at
and an error message.  The code never does: building the status filter
evaluates models.TaskStatusEnum.PENDING, which raises AttributeError (the
enum has no such member), so every cycle ends in its except clause with the
store untouched. -/
theorem timeout_monitor_cycle_inert :
    ∀ (db : Store) (now : Int),
      timeoutMonitorBody db now = .error (.attributeError "PENDING")
      ∧ timeoutMonitorCycle db now = db :=
  fun _ _ => ⟨rfl, rfl⟩

/-- C3: the claim says processing two deliveries of the same execution id
sends exactly one broadcast and performs one PENDING-to-BROADCASTED
transition.  The code sends zero broadcasts: the status check evaluates
models.TaskStatusEnum.PENDING, raising AttributeError before any send, so
both deliveries are rolled back and the store is unchanged. -/
theorem publisher_redelivery_no_broadcast :
    processTwice storePub "e1" (Except.ok ()) 100 200 = (storePub, [])
    ∧ processExecutionBody storePub "e1" (Except.ok ()) 100
        = .error (.attributeError "PENDING") :=
  ⟨rfl, rfl⟩

/-- C4: the claim says one cron-evaluator cycle over a due task (cron
"*/5 * * * *", next_run = 600, evaluated at now = 600) creates one PENDING
execution, pushes its id, and advances last_run/next_run.  The code creates
nothing: the task's unit of work raises AttributeError at
status=models.TaskStatusEnum.PENDING, is rolled back, and the cycle leaves
the store unchanged with no queue push. -/
theorem cron_cycle_creates_nothing :
    cronEvaluatorCycle storeCron 600 (fun _ => "exec-fresh") = (storeCron, [])
    ∧ cronTaskUnit storeCron taskT1 "exec-fresh" 600 = .error (.attributeError "PENDING") :=
  ⟨cronEvaluatorCycle_inert storeCron 600 (fun _ => "exec-fresh"), rfl⟩

/-- C5: TaskStatusEnum defines exactly BROADCASTED, CLAIMED, IN_PROGRESS,
COMPLETED, FAILED, TIMEDOUT and no PENDING member; consequently every unit of
work that evaluates models.TaskStatusEnum.PENDING — the cron evaluator's
execution creation and the publisher's status check — raises AttributeError
into its local except clause, is rolled back, and leaves the store
unchanged. -/
theorem no_pending_member :
    TaskStatusEnum.attr "PENDING" = .error (.attributeError "PENDING")
    ∧ TaskStatusEnum.members
        = [.broadcasted, .claimed, .in_progress, .completed, .failed, .timedout]
    ∧ (∀ s : TaskStatus, s ∈ TaskStatusEnum.members)
    ∧ (∀ (db : Store) (task : Task) (freshId : String) (now : Int),
        cronTaskUnit db task freshId now = .error (.attributeError "PENDING"))
    ∧ (∀ (db : Store) (now : Int) (freshId : Nat → String),
        cronEvaluatorCycle db now freshId = (db, []))
    ∧ (∀ (db : Store) (eid : String) (send : Except PyErr Unit) (now : Int)
        (et : TaskExecution × Task), db.joinExecTask eid = some et →
          processExecutionBody db eid send now = .error (.attributeError "PENDING")
          ∧ process_execution db eid send now = (db, [])) := by
  refine ⟨rfl, rfl, ?_, fun _ _ _ _ => rfl, cronEvaluatorCycle_inert, ?_⟩
  · intro s
    cases s <;> simp [TaskStatusEnum.members]
  · intro db eid send now et h
    exact ⟨processExecutionBody_raises db eid send now et h,
      process_execution_inert db eid send now⟩

/-- Witness for C5's theorem at a concrete store: the publisher finds the
execution joined to its task and its unit of work raises AttributeError,
leaving the store unchanged. -/
theorem no_pending_member_witness :
    storePub.joinExecTask "e1" = some (execOpenE1, taskT1)
    ∧ processExecutionBody storePub "e1" (Except.ok ()) 300
        = .error (.attributeError "PENDING")
    ∧ process_execution storePub "e1" (Except.ok ()) 300 = (storePub, []) := by
  have h := no_pending_member.2.2.2.2.2 storePub "e1" (Except.ok ()) 300
    (execOpenE1, taskT1) rfl
  exact ⟨rfl, h.1, h.2⟩

/-- C7: the claim says each of the four protocol handlers (claim, status,
complete/failed, checkin) drops malformed payloads with a log entry and no
exception escapes to the listening loop.  The claim, status and result
handlers do (unparseable JSON and missing keys are caught, no row mutated);
the checkin handler does not exist: on_checkin looks up
protocol.handle_checkin, which is undefined, so every /checkin message —
such as the malformed "/checkin lbrace-not-valid-json" — raises
AttributeError out of the handler. -/
theorem malformed_payload_handling :
    ∀ (db : Store) (now : Int),
      handle_claim db { command := "/claim", body := .error .jsonDecodeError } now = db
      ∧ handle_status db { command := "/status", body := .error .jsonDecodeError } now = db
      ∧ handle_result db { command := "/failed", body := .error .jsonDecodeError } now = db
      ∧ handle_claim db { command := "/claim", body := .ok (Json.obj []) } now = db
      ∧ handle_status db { command := "/status", body := .ok (Json.obj []) } now = db
      ∧ handle_result db { command := "/complete", body := .ok (Json.obj []) } now = db
      ∧ on_checkin db { command := "/checkin", body := .error .jsonDecodeError } now
          = .error (.attributeError "handle_checkin") :=
  fun _ _ => ⟨rfl, rfl, rfl, rfl, rfl, rfl, rfl⟩

/-- C9: the claim says an inbound /checkin from a known bot updates that
bot's last_checkin and nothing else.  The code never updates it: the
registered on_checkin handler calls protocol.handle_checkin, an attribute
the protocol module does not define, so every /checkin message raises
AttributeError and no row is touched. -/
theorem checkin_handler_undefined :
    ∀ (db : Store) (msg : InMsg) (now : Int),
      protocolModuleAttr "handle_checkin" = none
      ∧ on_checkin db msg now = .error (.attributeError "handle_checkin") :=
  fun _ _ _ => ⟨rfl, rfl⟩

/-- C10: the claim says that when the transport send fails the execution is
left PENDING with queued_at unset and the id not re-enqueued.  The code
never reaches the send: the unit of work raises AttributeError at the
models.TaskStatusEnum.PENDING status check first, so the except clause rolls
back with nothing sent (and no status value PENDING even exists).  Here the
transport would raise, and the store is returned unchanged with zero
broadcasts. -/
theorem publisher_send_failure_unreachable :
    process_execution storePub "e1"
        (Except.error (.transportError "telegram send failed")) 100 = (storePub, [])
    ∧ processExecutionBody storePub "e1"
        (Except.error (.transportError "telegram send failed")) 100
        = .error (.attributeError "PENDING") :=
  ⟨rfl, rfl⟩

/-! Further helper lemmas for the claim and re-delivery theorems. -/

/-- Bind on a successful Except value applies the continuation. -/
theorem exceptBind_ok {ε α β : Type} (a : α) (f : α → Except ε β) :
    (Except.ok a >>= f) = f a := rfl

/-- Bind on a raised Except value propagates the error. -/
theorem exceptBind_error {ε α β : Type} (e : ε) (f : α → Except ε β) :
    ((Except.error e : Except ε α) >>= f) = (Except.error e : Except ε β) := rfl

/-- Pure of the Except monad is Except.ok. -/
theorem exceptPure_eq_ok {ε α : Type} (a : α) :
    (pure a : Except ε α) = Except.ok a := rfl

/-- Case analysis of handle_claim: it either leaves the store unchanged
(parse error, failed lookup, or a claim of an execution assigned to another
bot) or commits the claim update on the found execution together with the
bot's last_checkin stamp. -/
theorem handle_claim_characterization (db : Store) (msg : InMsg) (now : Int) :
    handle_claim db msg now = db ∨
    ∃ (data v_e v_b c : Json) (bot : Bot) (ex : TaskExecution),
      msg.body = .ok data
      ∧ data.getKey "execution_id" = .ok v_e
      ∧ data.getKey "bot_id" = .ok v_b
      ∧ pyTimeField data "claimed_at" now = .ok c
      ∧ db.findBotJson v_b = some bot
      ∧ db.findExecJson v_e = some ex
      ∧ (ex.assigned_to = none ∨ ∃ o, ex.assigned_to = some o ∧ v_b.eqStr o = true)
      ∧ handle_claim db msg now =
          touchBot (db.updateExec ex.execution_id (claimUpd v_b)) bot.bot_id now := by
  cases hb : msg.body with
  | error e => left; simp [handle_claim, handleClaimBody, hb, exceptBind_ok, exceptBind_error]
  | ok data =>
    cases hke : data.getKey "execution_id" with
    | error e =>
      left
      simp [handle_claim, handleClaimBody, hb, hke, exceptBind_ok, exceptBind_error]
    | ok v_e =>
      cases hkb : data.getKey "bot_id" with
      | error e =>
        left
        simp [handle_claim, handleClaimBody, hb, hke, hkb, exceptBind_ok, exceptBind_error]
      | ok v_b =>
        cases hct : pyTimeField data "claimed_at" now with
        | error e =>
          left
          simp [handle_claim, handleClaimBody, hb, hke, hkb, hct, exceptBind_ok, exceptBind_error]
        | ok c =>
          cases hfb : db.findBotJson v_b with
          | none =>
            left
            simp [handle_claim, handleClaimBody, hb, hke, hkb, hct, hfb,
              exceptBind_ok, exceptBind_error, exceptPure_eq_ok]
          | some bot =>
            cases hfe : db.findExecJson v_e with
            | none =>
              left
              simp [handle_claim, handleClaimBody, hb, hke, hkb, hct, hfb, hfe,
                exceptBind_ok, exceptBind_error, exceptPure_eq_ok]
            | some ex =>
              cases hat : ex.assigned_to with
              | none =>
                right
                refine ⟨data, v_e, v_b, c, bot, ex, rfl, hke, hkb, hct, hfb, hfe, Or.inl hat, ?_⟩
                simp [handle_claim, handleClaimBody, hb, hke, hkb, hct, hfb, hfe, hat,
                  exceptBind_ok, exceptBind_error, exceptPure_eq_ok, touchBot]
              | some o =>
                by_cases heq : v_b.eqStr o = true
                · right
                  refine ⟨data, v_e, v_b, c, bot, ex, rfl, hke, hkb, hct, hfb, hfe,
                    Or.inr ⟨o, hat, heq⟩, ?_⟩
                  simp [handle_claim, handleClaimBody, hb, hke, hkb, hct, hfb, hfe, hat, heq,
                    exceptBind_ok, exceptBind_error, exceptPure_eq_ok, touchBot]
                · left
                  simp [handle_claim, handleClaimBody, hb, hke, hkb, hct, hfb, hfe, hat, heq,
                    exceptBind_ok, exceptBind_error, exceptPure_eq_ok]

/-- Finding in a mapped list when the mapping does not change the predicate's
verdict on any element. -/
theorem find?_map_of_pred_inv {α : Type} (l : List α) (g : α → α) (p : α → Bool)
    (h : ∀ a, p (g a) = p a) : (l.map g).find? p = (l.find? p).map g := by
  induction l with
  | nil => rfl
  | cons a l ih =>
    by_cases hpa : p a = true
    · rw [List.map_cons, List.find?_cons_of_pos _ (by rw [h]; exact hpa),
        List.find?_cons_of_pos _ hpa, Option.map_some']
    · rw [List.map_cons, List.find?_cons_of_neg _ (by rw [h]; exact hpa),
        List.find?_cons_of_neg _ hpa, ih]

/-- Finding with pointwise-equal predicates gives the same result. -/
theorem find?_congr_pred {α : Type} (l : List α) (p q : α → Bool) (h : ∀ a, p a = q a) :
    l.find? p = l.find? q := by
  induction l with
  | nil => rfl
  | cons a l ih =>
    by_cases hpa : p a = true
    · rw [List.find?_cons_of_pos _ hpa, List.find?_cons_of_pos _ (by rw [← h]; exact hpa)]
    · rw [List.find?_cons_of_neg _ hpa, List.find?_cons_of_neg _ (by rw [← h]; exact hpa), ih]

/-- Boolean equality of strings is symmetric. -/
theorem string_beq_symm (a b : String) : (a == b) = (b == a) := by
  by_cases h : a = b
  · subst h; rfl
  · rw [beq_eq_false_iff_ne.mpr h, beq_eq_false_iff_ne.mpr (Ne.symm h)]

/-- Json-keyed execution lookup after an execution update that preserves
primary keys. -/
theorem findExecJson_updateExec (db : Store) (eid2 : String)
    (f : TaskExecution → TaskExecution) (hf : ∀ r, (f r).execution_id = r.execution_id)
    (v : Json) :
    (db.updateExec eid2 f).findExecJson v
      = (db.findExecJson v).map (fun r => if r.execution_id == eid2 then f r else r) := by
  unfold Store.findExecJson Store.updateExec
  apply find?_map_of_pred_inv
  intro a
  by_cases h : (a.execution_id == eid2) = true
  · rw [if_pos h, hf]
  · rw [if_neg h]

/-- Stamping a bot's last_checkin does not change execution lookups. -/
theorem findExecJson_touchBot (db : Store) (bid : String) (n : Int) (v : Json) :
    (touchBot db bid n).findExecJson v = db.findExecJson v := rfl

/-- Updating an execution does not change bot lookups. -/
theorem findBotJson_updateExec (db : Store) (eid : String)
    (f : TaskExecution → TaskExecution) (v : Json) :
    (db.updateExec eid f).findBotJson v = db.findBotJson v := rfl

/-- Bot lookup after stamping a bot's last_checkin. -/
theorem findBotJson_touchBot (db : Store) (bid : String) (n : Int) (v : Json) :
    (touchBot db bid n).findBotJson v
      = (db.findBotJson v).map
          (fun b => if b.bot_id == bid then { b with last_checkin := some n } else b) := by
  unfold touchBot Store.findBotJson Store.updateBot
  apply find?_map_of_pred_inv
  intro a
  by_cases h : (a.bot_id == bid) = true
  · rw [if_pos h]
  · rw [if_neg h]

/-- Lookup by primary-key string agrees with lookup by the string payload
value. -/
theorem findExec_eq_findExecJson_str (db : Store) (e : String) :
    db.findExec e = db.findExecJson (Json.str e) := by
  unfold Store.findExec Store.findExecJson
  apply find?_congr_pred
  intro a
  show (a.execution_id == e) = Json.eqStr (Json.str e) a.execution_id
  unfold Json.eqStr
  exact string_beq_symm a.execution_id e

/-- A JSON value that compares equal to a string column is that string. -/
theorem eqStr_eq (v : Json) (s : String) (h : v.eqStr s = true) : v = Json.str s := by
  cases v <;> simp_all [Json.eqStr]

/-- A non-null assigned_to is never changed by handle_claim: a claim from a
different bot is rejected and a claim from the assigned bot rewrites the same
value. -/
theorem handle_claim_preserves_assigned (db : Store) (msg : InMsg) (now : Int)
    (eid x : String) (h : db.execAssigned eid = some (some x)) :
    (handle_claim db msg now).execAssigned eid = some (some x) := by
  rcases handle_claim_characterization db msg now with hc |
    ⟨data, v_e, v_b, c, bot, ex, hb, hke, hkb, hct, hfb, hfe, hguard, hc⟩
  · rw [hc]; exact h
  · rw [hc]
    have h1 : ∀ (s : Store) (bid : String) (n : Int),
        (touchBot s bid n).execAssigned eid = s.execAssigned eid := fun _ _ _ => rfl
    rw [h1]
    unfold Store.execAssigned at h ⊢
    rw [findExec_eq_findExecJson_str] at h ⊢
    rw [findExecJson_updateExec db ex.execution_id (claimUpd v_b) (fun r => rfl) (Json.str eid)]
    obtain ⟨r, hr, hrx⟩ := Option.map_eq_some'.mp h
    have hfe' : db.executions.find? (fun a => v_e.eqStr a.execution_id) = some ex := hfe
    have hr' : db.executions.find? (fun a => (Json.str eid).eqStr a.execution_id) = some r := hr
    rw [hr, Option.map_some', Option.map_some']
    by_cases hid : (r.execution_id == ex.execution_id) = true
    · have hidr : r.execution_id = ex.execution_id := eq_of_beq hid
      have heid : eid = r.execution_id := by
        have h0 := @List.find?_some TaskExecution
          (fun a => (Json.str eid).eqStr a.execution_id) r db.executions hr'
        simpa [Json.eqStr] using h0
      have hq : v_e.eqStr ex.execution_id = true :=
        @List.find?_some TaskExecution (fun a => v_e.eqStr a.execution_id) ex db.executions hfe'
      have hve : v_e = Json.str ex.execution_id := eqStr_eq v_e ex.execution_id hq
      have hre : r = ex := by
        rw [hve, ← hidr, ← heid] at hfe
        rw [hfe] at hr
        exact (Option.some.inj hr).symm
      rw [if_pos hid]
      rcases hguard with hnone | ⟨o, ho, hvo⟩
      · rw [hre, hnone] at hrx
        exact Option.noConfusion hrx
      · have hox : o = x := by
          rw [hre] at hrx
          rw [ho] at hrx
          exact Option.some.inj hrx
        have hvb : v_b = Json.str x := by
          rw [← hox]
          exact eqStr_eq _ _ hvo
        show some (claimUpd v_b r).assigned_to = some (some x)
        rw [hvb]
        rfl
    · rw [if_neg hid]
      exact congrArg some hrx

/-- Lookup of execution_id in a well-formed claim payload. -/
theorem claimData_getKey_eid (e b : String) (c : Option Json) :
    (claimData e b c).getKey "execution_id" = .ok (Json.str e) := by
  cases c <;> rfl

/-- Lookup of bot_id in a well-formed claim payload. -/
theorem claimData_getKey_bid (e b : String) (c : Option Json) :
    (claimData e b c).getKey "bot_id" = .ok (Json.str b) := by
  cases c <;> rfl

/-- When the claimed_at extraction raises, handle_claim is caught by its
except clause and changes nothing. -/
theorem handle_claim_err (db : Store) (e b : String) (cj : Option Json) (t : Int)
    (err : PyErr) (hct : pyTimeField (claimData e b cj) "claimed_at" t = .error err) :
    handle_claim db (mkClaimMsg e b cj) t = db := by
  simp only [handle_claim, handleClaimBody, mkClaimMsg, exceptBind_ok,
    exceptBind_error, claimData_getKey_eid, claimData_getKey_bid, hct]

/-- A claim from an unknown or hidden bot is a logged no-op. -/
theorem handle_claim_nobot (db : Store) (e b : String) (cj : Option Json) (t : Int)
    (cval : Json) (hct : pyTimeField (claimData e b cj) "claimed_at" t = .ok cval)
    (hfb : db.findBotJson (Json.str b) = none) :
    handle_claim db (mkClaimMsg e b cj) t = db := by
  simp only [handle_claim, handleClaimBody, mkClaimMsg, exceptBind_ok,
    exceptBind_error, claimData_getKey_eid, claimData_getKey_bid, hct, hfb,
    exceptPure_eq_ok]

/-- A claim of a non-existent execution is a logged no-op. -/
theorem handle_claim_noexec (db : Store) (e b : String) (cj : Option Json) (t : Int)
    (cval : Json) (bot : Bot)
    (hct : pyTimeField (claimData e b cj) "claimed_at" t = .ok cval)
    (hfb : db.findBotJson (Json.str b) = some bot)
    (hfe : db.findExecJson (Json.str e) = none) :
    handle_claim db (mkClaimMsg e b cj) t = db := by
  simp only [handle_claim, handleClaimBody, mkClaimMsg, exceptBind_ok,
    exceptBind_error, claimData_getKey_eid, claimData_getKey_bid, hct, hfb, hfe,
    exceptPure_eq_ok]

/-- A well-formed claim from a known bot for an existing execution that is
unassigned or already assigned to the same bot commits the claim update and
the bot's last_checkin. -/
theorem handle_claim_accepts (db : Store) (e b : String) (cj : Option Json)
    (cval : Json) (t : Int) (bot : Bot) (ex : TaskExecution)
    (hct : pyTimeField (claimData e b cj) "claimed_at" t = .ok cval)
    (hb : db.findBotJson (Json.str b) = some bot)
    (hex : db.findExecJson (Json.str e) = some ex)
    (hok : ex.assigned_to = none ∨ ex.assigned_to = some b) :
    handle_claim db (mkClaimMsg e b cj) t =
      touchBot (db.updateExec ex.execution_id (claimUpd (Json.str b)))
        bot.bot_id t := by
  have hguard : (ex.assigned_to.elim false
      (fun owner => !(Json.str b).eqStr owner)) = false := by
    rcases hok with h | h <;> rw [h]
    · rfl
    · show (!(Json.str b).eqStr b) = false
      show (!(b == b)) = false
      rw [beq_self_eq_true]
      rfl
  simp only [handle_claim, handleClaimBody, mkClaimMsg, exceptBind_ok,
    exceptBind_error, claimData_getKey_eid, claimData_getKey_bid, hct, hb, hex,
    hguard, Bool.false_eq_true, if_false, exceptPure_eq_ok]
  rfl

/-- A claim of an execution already assigned to a different bot is rejected
with no state change. -/
theorem handle_claim_rejects (db : Store) (e b : String) (cj : Option Json) (t : Int)
    (ex : TaskExecution) (o : String)
    (hex : db.findExecJson (Json.str e) = some ex)
    (hak : ex.assigned_to = some o)
    (hno : (b == o) = false) :
    handle_claim db (mkClaimMsg e b cj) t = db := by
  have hguard : (ex.assigned_to.elim false
      (fun owner => !(Json.str b).eqStr owner)) = true := by
    rw [hak]
    show (!(Json.str b).eqStr o) = true
    show (!(b == o)) = true
    rw [hno]
    rfl
  cases hct : pyTimeField (claimData e b cj) "claimed_at" t with
  | error err =>
    simp only [handle_claim, handleClaimBody, mkClaimMsg, exceptBind_ok,
      exceptBind_error, claimData_getKey_eid, claimData_getKey_bid, hct]
  | ok c =>
    cases hfb : db.findBotJson (Json.str b) with
    | none =>
      simp only [handle_claim, handleClaimBody, mkClaimMsg, exceptBind_ok,
        exceptBind_error, claimData_getKey_eid, claimData_getKey_bid, hct, hfb,
        exceptPure_eq_ok]
    | some bot =>
      simp only [handle_claim, handleClaimBody, mkClaimMsg, exceptBind_ok,
        exceptBind_error, claimData_getKey_eid, claimData_getKey_bid, hct, hfb, hex,
        hguard, if_true, exceptPure_eq_ok]

/-- The two-claims race: with both bots known and non-hidden and the
execution unassigned, the first processed claim records its bot and the
second claim, from the other bot, leaves the store exactly as the first
left it. -/
theorem claim_scenario (db : Store) (e b1 b2 : String) (c1 c2 : Option Int) (t1 t2 : Int)
    (bot1 bot2 : Bot) (ex : TaskExecution)
    (hne : b1 ≠ b2)
    (hb1 : db.findBotJson (Json.str b1) = some bot1)
    (hb2 : db.findBotJson (Json.str b2) = some bot2)
    (hex : db.findExecJson (Json.str e) = some ex)
    (hun : ex.assigned_to = none) :
    (handle_claim db (mkClaimMsg e b1 (c1.map Json.time)) t1).execAssigned e
        = some (some b1)
    ∧ handle_claim (handle_claim db (mkClaimMsg e b1 (c1.map Json.time)) t1)
        (mkClaimMsg e b2 (c2.map Json.time)) t2
      = handle_claim db (mkClaimMsg e b1 (c1.map Json.time)) t1 := by
  have hct1 : pyTimeField (claimData e b1 (c1.map Json.time)) "claimed_at" t1
      = .ok (Json.time (c1.elim t1 id)) := by
    cases c1 <;> rfl
  have hacc := handle_claim_accepts db e b1 (c1.map Json.time)
    (Json.time (c1.elim t1 id)) t1 bot1 ex hct1 hb1 hex (Or.inl hun)
  have hfe1 : (touchBot (db.updateExec ex.execution_id
        (claimUpd (Json.str b1))) bot1.bot_id t1).findExecJson (Json.str e)
      = some (claimUpd (Json.str b1) ex) := by
    rw [findExecJson_touchBot,
      findExecJson_updateExec db ex.execution_id
        (claimUpd (Json.str b1)) (fun r => rfl) (Json.str e),
      hex, Option.map_some', if_pos (beq_self_eq_true ex.execution_id)]
  constructor
  · rw [hacc]
    unfold Store.execAssigned
    rw [findExec_eq_findExecJson_str, hfe1, Option.map_some']
    rfl
  · rw [hacc]
    exact handle_claim_rejects _ e b2 (c2.map Json.time) t2
      (claimUpd (Json.str b1) ex) b1 hfe1 rfl
      (beq_eq_false_iff_ne.mpr (Ne.symm hne))

/-- The conditional claim update of a fixed execution key is idempotent on
every row. -/
theorem claimUpd_idem_pointwise (v : Json) (eid : String) (a : TaskExecution) :
    (fun r => if r.execution_id == eid then claimUpd v r else r)
      ((fun r => if r.execution_id == eid then claimUpd v r else r) a)
    = (fun r => if r.execution_id == eid then claimUpd v r else r) a := by
  by_cases h : (a.execution_id == eid) = true
  · show (if ((if a.execution_id == eid then claimUpd v a else a).execution_id == eid)
        then claimUpd v (if a.execution_id == eid then claimUpd v a else a)
        else (if a.execution_id == eid then claimUpd v a else a))
      = (if a.execution_id == eid then claimUpd v a else a)
    rw [if_pos h]
    rw [if_pos (show ((claimUpd v a).execution_id == eid) = true from h)]
    rfl
  · show (if ((if a.execution_id == eid then claimUpd v a else a).execution_id == eid)
        then claimUpd v (if a.execution_id == eid then claimUpd v a else a)
        else (if a.execution_id == eid then claimUpd v a else a))
      = (if a.execution_id == eid then claimUpd v a else a)
    rw [if_neg h, if_neg h]

/-- Re-delivering a claim whose claimed_at extraction succeeds on both
deliveries (with possibly different parsed values, which the committed row
never records) leaves the execution table exactly as the first delivery left
it. -/
theorem claim_idem_core (db : Store) (e b : String) (cj : Option Json) (t1 t2 : Int)
    (cv1 cv2 : Json)
    (hct1 : pyTimeField (claimData e b cj) "claimed_at" t1 = .ok cv1)
    (hct2 : pyTimeField (claimData e b cj) "claimed_at" t2 = .ok cv2) :
    (handle_claim (handle_claim db (mkClaimMsg e b cj) t1)
        (mkClaimMsg e b cj) t2).executions
      = (handle_claim db (mkClaimMsg e b cj) t1).executions := by
  cases hfb : db.findBotJson (Json.str b) with
  | none =>
    rw [handle_claim_nobot db e b cj t1 cv1 hct1 hfb,
      handle_claim_nobot db e b cj t2 cv2 hct2 hfb]
  | some bot =>
    cases hfe : db.findExecJson (Json.str e) with
    | none =>
      rw [handle_claim_noexec db e b cj t1 cv1 bot hct1 hfb hfe,
        handle_claim_noexec db e b cj t2 cv2 bot hct2 hfb hfe]
    | some ex =>
      have haccept : ∀ (hok : ex.assigned_to = none ∨ ex.assigned_to = some b),
          (handle_claim (handle_claim db (mkClaimMsg e b cj) t1)
              (mkClaimMsg e b cj) t2).executions
            = (handle_claim db (mkClaimMsg e b cj) t1).executions := by
        intro hok
        have hr1 := handle_claim_accepts db e b cj cv1 t1 bot ex hct1 hfb hfe hok
        set db1 := touchBot (db.updateExec ex.execution_id (claimUpd (Json.str b)))
          bot.bot_id t1 with hdb1
        have hb2 : db1.findBotJson (Json.str b)
            = some (if bot.bot_id == bot.bot_id
                then { bot with last_checkin := some t1 } else bot) := by
          rw [hdb1, findBotJson_touchBot, findBotJson_updateExec, hfb, Option.map_some']
        have hex2 : db1.findExecJson (Json.str e)
            = some (claimUpd (Json.str b) ex) := by
          rw [hdb1, findExecJson_touchBot,
            findExecJson_updateExec db ex.execution_id (claimUpd (Json.str b))
              (fun r => rfl) (Json.str e),
            hfe, Option.map_some', if_pos (beq_self_eq_true ex.execution_id)]
        have hr2 := handle_claim_accepts db1 e b cj cv2 t2 _ _ hct2 hb2 hex2
          (Or.inr rfl)
        rw [hr1, hr2]
        show ((db1.updateExec (claimUpd (Json.str b) ex).execution_id
            (claimUpd (Json.str b))).executions) = db1.executions
        show (db1.executions.map (fun r =>
            if r.execution_id == (claimUpd (Json.str b) ex).execution_id
            then claimUpd (Json.str b) r else r)) = db1.executions
        have hdbe : db1.executions = db.executions.map (fun r =>
            if r.execution_id == ex.execution_id then claimUpd (Json.str b) r else r) := by
          rw [hdb1]
          rfl
        rw [hdbe, List.map_map]
        apply List.map_congr_left
        intro a _
        exact claimUpd_idem_pointwise (Json.str b) ex.execution_id a
      cases hat : ex.assigned_to with
      | none => exact haccept (Or.inl hat)
      | some o =>
        by_cases hbo : (b == o) = true
        · exact haccept (Or.inr (by rw [hat, eq_of_beq hbo]))
        · rw [handle_claim_rejects db e b cj t1 ex o hfe hat
              (Bool.not_eq_true _ ▸ hbo),
            handle_claim_rejects db e b cj t2 ex o hfe hat
              (Bool.not_eq_true _ ▸ hbo)]

/-- C6: assigned_to is written at most once by handle_claim and never changed
afterwards: any execution whose assigned_to is already set keeps that value
across every inbound claim, and in the two-bot race for the same execution
the first processed known, non-hidden bot is recorded while the later claim
from the other bot is rejected with no state change. -/
theorem assigned_to_first_claim_wins :
    (∀ (db : Store) (msg : InMsg) (now : Int) (eid x : String),
        db.execAssigned eid = some (some x) →
        (handle_claim db msg now).execAssigned eid = some (some x))
    ∧ (∀ (db : Store) (e b1 b2 : String) (c1 c2 : Option Int) (t1 t2 : Int)
        (bot1 bot2 : Bot) (ex : TaskExecution),
        b1 ≠ b2 →
        db.findBotJson (Json.str b1) = some bot1 →
        db.findBotJson (Json.str b2) = some bot2 →
        db.findExecJson (Json.str e) = some ex →
        ex.assigned_to = none →
        (handle_claim db (mkClaimMsg e b1 (c1.map Json.time)) t1).execAssigned e
            = some (some b1)
        ∧ handle_claim (handle_claim db (mkClaimMsg e b1 (c1.map Json.time)) t1)
            (mkClaimMsg e b2 (c2.map Json.time)) t2
          = handle_claim db (mkClaimMsg e b1 (c1.map Json.time)) t1) :=
  ⟨handle_claim_preserves_assigned,
   fun db e b1 b2 c1 c2 t1 t2 bot1 bot2 ex hne hb1 hb2 hex hun =>
     claim_scenario db e b1 b2 c1 c2 t1 t2 bot1 bot2 ex hne hb1 hb2 hex hun⟩

/-- Witness for C6's theorem at a concrete store with two known bots racing
for the same broadcasted execution. -/
theorem assigned_to_first_claim_wins_witness :
    ("b1" : String) ≠ "b2"
    ∧ storeTwoBots.findBotJson (Json.str "b1") = some botB1
    ∧ storeTwoBots.findBotJson (Json.str "b2") = some botB2
    ∧ storeTwoBots.findExecJson (Json.str "e1") = some execOpenE1
    ∧ execOpenE1.assigned_to = none
    ∧ (handle_claim storeTwoBots (mkClaimMsg "e1" "b1" (some (Json.time 10))) 100).execAssigned "e1"
        = some (some "b1")
    ∧ handle_claim
        (handle_claim storeTwoBots (mkClaimMsg "e1" "b1" (some (Json.time 10))) 100)
        (mkClaimMsg "e1" "b2" (some (Json.time 20))) 200
      = handle_claim storeTwoBots (mkClaimMsg "e1" "b1" (some (Json.time 10))) 100 := by
  have h := assigned_to_first_claim_wins.2 storeTwoBots "e1" "b1" "b2"
    (some 10) (some 20) 100 200 botB1 botB2 execOpenE1
    (by decide) rfl rfl rfl rfl
  exact ⟨by decide, rfl, rfl, rfl, rfl, h.1, h.2⟩

/-- C8: for an execution already IN_PROGRESS and assigned to bot B,
processing a further delivery of B's /claim message leaves the execution's
state unchanged: the claimed row re-reads identically afterwards, and a
second delivery of the same message leaves the execution table exactly as
the first delivery left it, whatever the payload's claimed_at field (the
source's `execution.claimed_at = ...` targets an unmapped attribute that
db.commit() never persists, so no timestamp of the row is overwritten and no
error is raised). -/
theorem claim_redelivery_idempotent :
    (∀ (db : Store) (e b : String) (cj : Option Json) (t : Int) (ex : TaskExecution),
        db.findExecJson (Json.str e) = some ex →
        ex.status = TaskStatus.in_progress →
        ex.assigned_to = some b →
        (handle_claim db (mkClaimMsg e b cj) t).findExecJson (Json.str e) = some ex)
    ∧ (∀ (db : Store) (e b : String) (cj : Option Json) (t1 t2 : Int),
        (handle_claim (handle_claim db (mkClaimMsg e b cj) t1)
            (mkClaimMsg e b cj) t2).executions
          = (handle_claim db (mkClaimMsg e b cj) t1).executions) := by
  constructor
  · intro db e b cj t ex hex hst has
    cases hct : pyTimeField (claimData e b cj) "claimed_at" t with
    | error err =>
      rw [handle_claim_err db e b cj t err hct]
      exact hex
    | ok cval =>
      cases hfb : db.findBotJson (Json.str b) with
      | none =>
        rw [handle_claim_nobot db e b cj t cval hct hfb]
        exact hex
      | some bot =>
        have hacc := handle_claim_accepts db e b cj cval t bot ex hct hfb hex
          (Or.inr has)
        rw [hacc, findExecJson_touchBot,
          findExecJson_updateExec db ex.execution_id (claimUpd (Json.str b))
            (fun r => rfl) (Json.str e),
          hex, Option.map_some', if_pos (beq_self_eq_true ex.execution_id)]
        have hfix : claimUpd (Json.str b) ex = ex := by
          unfold claimUpd
          show { ex with status := TaskStatus.in_progress, assigned_to := some b } = ex
          rw [← hst, ← has]
        rw [hfix]
  · intro db e b cj t1 t2
    cases cj with
    | none =>
      exact claim_idem_core db e b none t1 t2 (Json.time t1) (Json.time t2) rfl rfl
    | some c =>
      cases c with
      | str sv =>
        rw [handle_claim_err db e b (some (Json.str sv)) t1 (.valueError sv) rfl,
          handle_claim_err db e b (some (Json.str sv)) t2 (.valueError sv) rfl]
      | null => exact claim_idem_core db e b (some Json.null) t1 t2 Json.null Json.null rfl rfl
      | bool v =>
        exact claim_idem_core db e b (some (Json.bool v)) t1 t2
          (Json.bool v) (Json.bool v) rfl rfl
      | num n =>
        exact claim_idem_core db e b (some (Json.num n)) t1 t2
          (Json.num n) (Json.num n) rfl rfl
      | time ct =>
        exact claim_idem_core db e b (some (Json.time ct)) t1 t2
          (Json.time ct) (Json.time ct) rfl rfl
      | arr xs =>
        exact claim_idem_core db e b (some (Json.arr xs)) t1 t2
          (Json.arr xs) (Json.arr xs) rfl rfl
      | obj kvs =>
        exact claim_idem_core db e b (some (Json.obj kvs)) t1 t2
          (Json.obj kvs) (Json.obj kvs) rfl rfl

/-- Witness for C8's theorem at a concrete store: an IN_PROGRESS execution
assigned to b1 re-claimed by b1 with a message omitting claimed_at — the
very input of the withdrawn counterexample — re-reads identically, and the
second delivery changes nothing. -/
theorem claim_redelivery_idempotent_witness :
    storeClaimed.findExecJson (Json.str "e1") = some execClaimedE1
    ∧ execClaimedE1.status = TaskStatus.in_progress
    ∧ execClaimedE1.assigned_to = some "b1"
    ∧ (handle_claim storeClaimed msgClaimNoTs 200).findExecJson (Json.str "e1")
        = some execClaimedE1
    ∧ (handle_claim (handle_claim storeClaimed msgClaimNoTs 100) msgClaimNoTs 200).executions
        = (handle_claim storeClaimed msgClaimNoTs 100).executions :=
  ⟨rfl, rfl, rfl,
   claim_redelivery_idempotent.1 storeClaimed "e1" "b1" none 200 execClaimedE1 rfl rfl rfl,
   claim_redelivery_idempotent.2 storeClaimed "e1" "b1" none 100 200⟩

end Urza
